import Mathlib

/-!
Shallow embedding of the claude-tracking event ingestion engine.

Source files embedded here:
- src/claude_tracking/track.py : derive_status, track, cleanup_stale_sessions
- src/claude_tracking/server.py : bridge_watcher (per-directory iteration)
- src/claude_tracking/tui.py : the user action that marks a session pending

Modelling conventions:
- The sessions table is a list of Session rows; the SQL SELECT by primary key
  is List.find? and UPDATE ... WHERE session_id = ? is a map over the list.
- Python integers are Int, byte offsets and file sizes are Nat (the bridge
  file is read in text mode; the model treats one character as one byte).
- dict.get with a default is Option.getD; a missing key is none.
- Columns never read or written by the embedded operations (name,
  is_priority, pending_reason) are omitted from the row type.
- External effects (tmux lookups, the clock, the filesystem) are explicit
  inputs: TmuxCtx carries the results of the tmux queries, now is the
  timestamp string, and the bridge file content and presence are arguments.
- JSON decoding of a bridge line is an explicit function argument
  (String to Option BridgeEvent); a malformed line is one on which it
  returns none, mirroring json.loads raising JSONDecodeError.
-/

/-- One row of the sessions table (track.py init_db), restricted to the
columns read or written by track and cleanup_stale_sessions. -/
structure Session where
  session_id : String
  project_dir : String
  tmux_pane : String
  tmux_window : String
  tmux_session : String
  status : String
  started_at : String
  last_activity : String
  last_event : String
  last_tool : String
  last_detail : String
  last_prompt : String
  prompt_count : Int
  tool_count : Int
  model : String
  transcript_path : String
  source : String
  pending_permissions : Int
  deriving Repr, DecidableEq

/-- One row of the events table (track.py init_db). -/
structure EventRow where
  session_id : String
  timestamp : String
  event_type : String
  tool_name : String
  detail : String
  deriving Repr, DecidableEq

/-- The SQLite store: the sessions table and the append-only events table. -/
structure DB where
  sessions : List Session
  events : List EventRow
  deriving Repr, DecidableEq

/-- The raw hook event payload handed to track (a JSON object in the source);
absent keys are none, tool_input is the nested object read by
extract_detail. -/
structure HookData where
  session_id : Option String := none
  hook_event_name : Option String := none
  cwd : Option String := none
  tool_name : Option String := none
  tool_input : List (String × String) := []
  model : Option String := none
  transcript_path : Option String := none
  notification_type : Option String := none
  prompt : Option String := none
  deriving Repr, DecidableEq

/-- Results of the external tmux queries made by track: env_pane, env_window
and env_session are what get_tmux_info returns (empty strings on failure or
outside tmux); ovr_window and ovr_session are the lookups track performs for
an overridden pane. -/
structure TmuxCtx where
  env_pane : String
  env_window : String
  env_session : String
  ovr_window : String
  ovr_session : String
  deriving Repr, DecidableEq

/-- One decoded line of a bridge file (server.py bridge_watcher): the
embedded event payload plus the worker metadata keys read by the watcher. -/
structure BridgeEvent where
  data : HookData := {}
  container : Option String := none
  host_dir : Option String := none
  host_tmux_pane : Option String := none
  deriving Repr, DecidableEq

/-- State threaded through the bridge watcher: the persisted per-file byte
offsets and the database. -/
structure WatcherState where
  offsets : List (String × Nat)
  db : DB
  deriving Repr, DecidableEq

/-- Lookup in the tool_input object with default empty string
(tool_input.get(key, "") in the source). -/
def dict_get (m : List (String × String)) (k : String) : String :=
  match m.find? (fun p => p.1 == k) with
  | some p => p.2
  | none => ""

/-- track.py extract_detail. -/
def extract_detail (event_name tool_name : String)
    (tool_input : List (String × String)) : String :=
  if event_name = "UserPromptSubmit" then ""
  else if tool_name = "Bash" then (dict_get tool_input "command").take 120
  else if tool_name = "Edit" ∨ tool_name = "Write" ∨ tool_name = "Read" then
    dict_get tool_input "file_path"
  else if tool_name = "Grep" then dict_get tool_input "pattern"
  else if tool_name = "Glob" then dict_get tool_input "pattern"
  else if tool_name = "Task" then (dict_get tool_input "description").take 120
  else if tool_name = "WebSearch" then (dict_get tool_input "query").take 120
  else if tool_name = "WebFetch" then (dict_get tool_input "url").take 120
  else ""

/-- track.py derive_status: the pure status state machine. -/
def derive_status (event_name : String) (pending_permissions : Int)
    (notification_type : String) (current_status : String) : String :=
  if event_name = "Stop" then "idle"
  else if event_name = "Notification" ∧ notification_type = "idle_prompt" then "idle"
  else if event_name = "SessionEnd" then "ended"
  else if event_name = "PermissionRequest" then "waiting"
  else if event_name = "Notification" ∧ notification_type = "permission_prompt" then "waiting"
  else if event_name = "PostToolUse" ∨ event_name = "PostToolUseFailure" then
    if pending_permissions > 0 then "waiting" else "active"
  else if event_name = "UserPromptSubmit" ∨ event_name = "PreToolUse" then "active"
  else current_status

/-- The pending_permissions update computed inline in track.py (lines
211-221): increment on PermissionRequest, floored decrement on tool
completion, reset to zero on Stop, UserPromptSubmit, SessionEnd or an idle
notification, otherwise unchanged. -/
def compute_new_pending (event_name notification_type : String)
    (current_pending : Int) : Int :=
  if event_name = "PermissionRequest" then current_pending + 1
  else if event_name = "PostToolUse" ∨ event_name = "PostToolUseFailure" then
    max 0 (current_pending - 1)
  else if event_name = "Stop" ∨ event_name = "UserPromptSubmit" ∨ event_name = "SessionEnd"
      ∨ (event_name = "Notification" ∧ notification_type = "idle_prompt") then 0
  else current_pending

/-- The pane track uses: a truthy (non-None, non-empty) tmux_pane_override
wins, otherwise the TMUX_PANE environment value from get_tmux_info. -/
def resolved_pane (ctx : TmuxCtx) (tmux_pane_override : Option String) : String :=
  match tmux_pane_override with
  | some p => if p = "" then ctx.env_pane else p
  | none => ctx.env_pane

/-- The window name track uses, resolved alongside the pane. -/
def resolved_window (ctx : TmuxCtx) (tmux_pane_override : Option String) : String :=
  match tmux_pane_override with
  | some p => if p = "" then ctx.env_window else ctx.ovr_window
  | none => ctx.env_window

/-- The tmux session name track uses, resolved alongside the pane. -/
def resolved_session (ctx : TmuxCtx) (tmux_pane_override : Option String) : String :=
  match tmux_pane_override with
  | some p => if p = "" then ctx.env_session else ctx.ovr_session
  | none => ctx.env_session

/-- The UPDATE statement track builds for an existing row, expressed as the
per-column assignments the executed SQL performs: last_activity, last_event,
status and pending_permissions always; tmux/model/cwd/transcript columns only
when the incoming value is non-empty; prompt columns and prompt_count on
UserPromptSubmit; tool columns and tool_count on any event carrying a tool
name. -/
def apply_update (now event_name status : String) (new_pending : Int)
    (pane window tmux_session model cwd transcript_path prompt_text tool_name detail : String)
    (r : Session) : Session :=
  { r with
    last_activity := now,
    last_event := event_name,
    status := status,
    pending_permissions := new_pending,
    tmux_pane := if pane ≠ "" then pane else r.tmux_pane,
    tmux_window := if window ≠ "" then window else r.tmux_window,
    tmux_session := if tmux_session ≠ "" then tmux_session else r.tmux_session,
    model := if model ≠ "" then model else r.model,
    project_dir := if cwd ≠ "" then cwd else r.project_dir,
    transcript_path := if transcript_path ≠ "" then transcript_path else r.transcript_path,
    last_prompt := if event_name = "UserPromptSubmit" then prompt_text else r.last_prompt,
    last_detail :=
      if event_name = "UserPromptSubmit" then prompt_text.take 120
      else if tool_name ≠ "" ∧ detail ≠ "" then detail else r.last_detail,
    last_tool :=
      if event_name ≠ "UserPromptSubmit" ∧ tool_name ≠ "" then tool_name else r.last_tool,
    prompt_count :=
      if event_name = "UserPromptSubmit" then r.prompt_count + 1 else r.prompt_count,
    tool_count :=
      if event_name ≠ "UserPromptSubmit" ∧ tool_name ≠ "" then r.tool_count + 1
      else r.tool_count }

/-- The UPDATE track runs before inserting a brand-new session on a
non-empty pane: every other session on the same pane that is not already
ended or dismissed is force-ended (track.py lines 271-279). -/
def end_others_on_pane (pane session_id : String) (rows : List Session) : List Session :=
  rows.map (fun r =>
    if r.tmux_pane == pane && r.session_id != session_id
        && !(r.status == "ended" || r.status == "dismissed")
    then { r with status := "ended" } else r)

/-- The INSERT track runs for a brand-new session (track.py lines 285-300). -/
def new_session_row (session_id cwd pane window tmux_session status now event_name
    tool_name detail prompt_text model transcript_path src : String)
    (new_pending : Int) : Session :=
  { session_id := session_id, project_dir := cwd, tmux_pane := pane,
    tmux_window := window, tmux_session := tmux_session, status := status,
    started_at := now, last_activity := now, last_event := event_name,
    last_tool := tool_name, last_detail := detail, last_prompt := prompt_text,
    prompt_count := if event_name = "UserPromptSubmit" then 1 else 0,
    tool_count := if tool_name ≠ "" then 1 else 0,
    model := model, transcript_path := transcript_path, source := src,
    pending_permissions := new_pending }

/-- track.py track: ingest one raw hook event into the store. The debug
dump, directory creation and transaction plumbing are effects outside the
data model; everything that reads or writes the two tables is embedded. -/
def track (data : HookData) (source : Option String) (tmux_pane_override : Option String)
    (ctx : TmuxCtx) (now : String) (db : DB) : DB :=
  let session_id := data.session_id.getD "unknown"
  let event_name := data.hook_event_name.getD "unknown"
  let cwd := data.cwd.getD ""
  let tool_name := data.tool_name.getD ""
  let model := data.model.getD ""
  let transcript_path := data.transcript_path.getD ""
  let notification_type := data.notification_type.getD ""
  let src := match source with
    | none => "host"
    | some s => if s = "" then "host" else s
  let pane := resolved_pane ctx tmux_pane_override
  let window := resolved_window ctx tmux_pane_override
  let tmux_session := resolved_session ctx tmux_pane_override
  let detail := extract_detail event_name tool_name data.tool_input
  let existing := db.sessions.find? (fun r => r.session_id == session_id)
  let current_pending : Int :=
    match existing with
    | some r => r.pending_permissions
    | none => 0
  let current_status :=
    match existing with
    | some r => if r.status = "" then "active" else r.status
    | none => "active"
  let new_pending := compute_new_pending event_name notification_type current_pending
  let status := derive_status event_name new_pending notification_type current_status
  let prompt_text :=
    if event_name = "UserPromptSubmit" then (data.prompt.getD "").take 200 else ""
  let sessions :=
    match existing with
    | some _ =>
        db.sessions.map (fun r =>
          if r.session_id == session_id then
            apply_update now event_name status new_pending pane window tmux_session
              model cwd transcript_path prompt_text tool_name detail r
          else r)
    | none =>
        let cleared :=
          if pane ≠ "" then end_others_on_pane pane session_id db.sessions
          else db.sessions
        cleared ++ [new_session_row session_id cwd pane window tmux_session status now
          event_name tool_name detail prompt_text model transcript_path src new_pending]
  { sessions := sessions,
    events := db.events ++ [{ session_id := session_id, timestamp := now,
                              event_type := event_name, tool_name := tool_name,
                              detail := detail }] }

/-- The arguments of one call to track, bundled so that whole ingestion
sequences can be folded over the store. -/
structure TrackCall where
  data : HookData
  source : Option String := none
  tmux_pane_override : Option String := none
  ctx : TmuxCtx
  now : String := ""
  deriving Repr

/-- Fold a sequence of track calls over the store, in order. -/
def track_all (calls : List TrackCall) (db : DB) : DB :=
  calls.foldl (fun acc c => track c.data c.source c.tmux_pane_override c.ctx c.now acc) db

/-- The store before any event has been ingested. -/
def emptyDB : DB := { sessions := [], events := [] }

/-- A tmux context with no pane information (outside tmux, or every tmux
query failed). -/
def ctx0 : TmuxCtx :=
  { env_pane := "", env_window := "", env_session := "", ovr_window := "", ovr_session := "" }

/-- The SELECT track performs: the row of the given session, if any. -/
def session_for (db : DB) (sid : String) : Option Session :=
  db.sessions.find? (fun r => r.session_id == sid)

/-- The pending_permissions count track would read for a session: the stored
value, or 0 when the session has no row (mirroring existing[1] or 0). -/
def pending_of (db : DB) (sid : String) : Int :=
  match session_for db sid with
  | some r => r.pending_permissions
  | none => 0

/-- The status track would read for a session: the stored value normalised
to active when empty or absent (mirroring existing[2] or "active"). -/
def status_of (db : DB) (sid : String) : String :=
  match session_for db sid with
  | some r => if r.status = "" then "active" else r.status
  | none => "active"

/-- A minimal hook payload carrying only a session id and an event name. -/
def simple_event (sid event_name : String) : HookData :=
  { session_id := some sid, hook_event_name := some event_name }

/-- Ingest a list of minimal events for one session via the host path with
no tmux context. -/
def ingest_simple (sid : String) (names : List String) (db : DB) : DB :=
  names.foldl (fun acc e => track (simple_event sid e) none none ctx0 "" acc) db

/-- The user action in tui.py action_toggle_pending that marks a session
pending (UPDATE sessions SET status = pending WHERE session_id = ?; the
pending_reason column it also writes is omitted from the row type). -/
def mark_pending (session_id : String) (db : DB) : DB :=
  { db with sessions := db.sessions.map (fun r =>
      if r.session_id == session_id then { r with status := "pending" } else r) }

/-- track.py cleanup_stale_sessions: the startup sweep. active_panes is the
set of live (session_name, pane_id) pairs reported by tmux list-panes; rows
with status active, waiting or idle whose pane or tmux session is empty or
whose pair is not live are collected and then force-ended by session_id. -/
def cleanup_stale_sessions (active_panes : List (String × String)) (db : DB) : DB :=
  let rows := db.sessions.filter (fun r =>
    r.status == "active" || r.status == "waiting" || r.status == "idle")
  let stale := (rows.filter (fun r =>
      r.tmux_pane == "" || r.tmux_session == ""
        || !(active_panes.contains (r.tmux_session, r.tmux_pane)))).map
    (fun r => r.session_id)
  { db with sessions := db.sessions.map (fun r =>
      if stale.contains r.session_id then { r with status := "ended" } else r) }

/-- Characters removed by Python str.strip with no argument (the ASCII
whitespace characters; the bridge lines are ASCII JSON). -/
def is_py_space (c : Char) : Bool :=
  c = ' ' || c = '\t' || c = '\n' || c = '\r' || c = '\x0b' || c = '\x0c'

/-- Python str.strip with no argument: drop whitespace from both ends. -/
def py_strip (s : String) : String :=
  String.mk (((s.data.dropWhile is_py_space).reverse.dropWhile is_py_space).reverse)

/-- Python str.startswith on strings. -/
def starts_with (s pre : String) : Bool :=
  pre.data.isPrefixOf s.data

/-- Python str.splitlines on newline-delimited text: every newline character
terminates a line, a final unterminated segment is also a line, and the
empty string has no lines. -/
def splitlines_go : List Char → List Char → List String
  | [], acc => if acc.isEmpty then [] else [String.mk acc.reverse]
  | c :: rest, acc =>
      if c = '\n' then String.mk acc.reverse :: splitlines_go rest []
      else splitlines_go rest (c :: acc)

/-- Python str.splitlines (on the newline terminators the bridge writer
produces). -/
def splitlines (s : String) : List String :=
  splitlines_go s.data []

/-- offsets.get(path, 0) on the persisted offset table. -/
def offsets_get (offsets : List (String × Nat)) (k : String) : Nat :=
  match offsets.find? (fun p => p.1 == k) with
  | some p => p.2
  | none => 0

/-- offsets[path] = value on the persisted offset table. -/
def offsets_set (offsets : List (String × Nat)) (k : String) (v : Nat) :
    List (String × Nat) :=
  if offsets.any (fun p => p.1 == k) then
    offsets.map (fun p => if p.1 == k then (k, v) else p)
  else offsets ++ [(k, v)]

/-- The bridge file location inside a watch directory
(os.path.join(dir_path, ".claude-tracking-bridge", "events.jsonl")). -/
def bridge_file_path (dir_path : String) : String :=
  dir_path ++ "/.claude-tracking-bridge/events.jsonl"

/-- server.py bridge_watcher, path translation for one decoded record:
container /workspace paths in cwd and transcript_path are rewritten onto the
recorded host_dir (or the watch directory when host_dir is absent). -/
def bridge_rewrite_data (dir_path : String) (ev : BridgeEvent) : HookData :=
  let data := ev.data
  let host_dir := ev.host_dir.getD ""
  let map_root := if host_dir = "" then dir_path else host_dir
  let cwd := data.cwd.getD ""
  let data := if starts_with cwd "/workspace" then
      { data with cwd := some (map_root ++ cwd.drop "/workspace".length) }
    else data
  let tp := data.transcript_path.getD ""
  let data := if starts_with tp "/workspace" then
      { data with transcript_path := some (map_root ++ tp.drop "/workspace".length) }
    else data
  data

/-- server.py bridge_watcher, per decoded record: read the worker metadata,
rewrite container /workspace paths to host paths, and forward the payload to
track with source container:<id> and the host pane as override. -/
def process_bridge_event (dir_path : String) (ev : BridgeEvent) (ctx : TmuxCtx)
    (now : String) (db : DB) : DB :=
  let container := ev.container.getD "unknown"
  let host_tmux_pane := ev.host_tmux_pane.getD ""
  let source := "container:" ++ container
  track (bridge_rewrite_data dir_path ev) (some source)
    (if host_tmux_pane = "" then none else some host_tmux_pane) ctx now db

/-- server.py bridge_watcher, per batch of newly read lines: strip each
line, skip empty ones, skip lines the JSON decoder rejects, and forward the
rest in file order. -/
def process_bridge_lines (jl : String → Option BridgeEvent) (dir_path : String)
    (lines : List String) (ctx : TmuxCtx) (now : String) (db : DB) : DB :=
  lines.foldl (fun acc raw =>
    let line := py_strip raw
    if line = "" then acc
    else match jl line with
      | none => acc
      | some ev => process_bridge_event dir_path ev ctx now acc) db

/-- server.py bridge_watcher, one iteration for one watch directory:
skip when the bridge file is absent or its size is at most the persisted
offset; otherwise read from the offset to the end, forward the batch, and
persist the end offset for the file. -/
def process_bridge_dir (jl : String → Option BridgeEvent) (dir_path : String)
    (file_present : Bool) (content : String) (ctx : TmuxCtx) (now : String)
    (st : WatcherState) : WatcherState :=
  if file_present then
    let bridge_file := bridge_file_path dir_path
    let file_size := content.length
    let offset := offsets_get st.offsets bridge_file
    if file_size ≤ offset then st
    else
      let new_data := content.drop offset
      let new_offset := file_size
      let db := process_bridge_lines jl dir_path (splitlines new_data) ctx now st.db
      { offsets := offsets_set st.offsets bridge_file new_offset, db := db }
  else st

def c1_call : TrackCall := { data := simple_event "s1" "PermissionRequest", ctx := ctx0 }

def c1_row : Session :=
  { session_id := "s1", project_dir := "", tmux_pane := "", tmux_window := "",
    tmux_session := "", status := "waiting", started_at := "", last_activity := "",
    last_event := "PermissionRequest", last_tool := "", last_detail := "",
    last_prompt := "", prompt_count := 0, tool_count := 0, model := "",
    transcript_path := "", source := "host", pending_permissions := 1 }

def c2_db : DB :=
  track_all [{ data := simple_event "s1" "PermissionRequest", ctx := ctx0 },
             { data := simple_event "s1" "PermissionRequest", ctx := ctx0 }] emptyDB

def ctxP (p : String) : TmuxCtx :=
  { env_pane := p, env_window := "", env_session := "", ovr_window := "", ovr_session := "" }

def c6_db1 : DB :=
  track (simple_event "s1" "UserPromptSubmit") none none (ctxP "%1") "t1" emptyDB

/-- The row of session s1 after a second session s2 is created on its pane:
force-ended by the reclaim UPDATE. -/
def c6_old_row : Session :=
  { session_id := "s1", project_dir := "", tmux_pane := "%1", tmux_window := "",
    tmux_session := "", status := "ended", started_at := "t1", last_activity := "t1",
    last_event := "UserPromptSubmit", last_tool := "", last_detail := "",
    last_prompt := "", prompt_count := 1, tool_count := 0, model := "",
    transcript_path := "", source := "host", pending_permissions := 0 }

def c6_db3 : DB :=
  track (simple_event "s2" "PreToolUse") none none (ctxP "%1") "t3"
    (track (simple_event "s2" "UserPromptSubmit") none none (ctxP "%2") "t2" c6_db1)

def ctxPS (p ts : String) : TmuxCtx :=
  { env_pane := p, env_window := "", env_session := ts, ovr_window := "", ovr_session := "" }

def c7_db : DB :=
  track (simple_event "s2" "UserPromptSubmit") none none (ctxPS "%2" "w") "t2"
    (track (simple_event "s1" "UserPromptSubmit") none none (ctxPS "%1" "w") "t1" emptyDB)

def c7_pending_db : DB :=
  mark_pending "s1"
    (track (simple_event "s1" "UserPromptSubmit") none none (ctxPS "%9" "w") "t1" emptyDB)

def demo_event : BridgeEvent :=
  { data := simple_event "s1" "UserPromptSubmit", container := some "c1" }

def demo_loads : String → Option BridgeEvent :=
  fun s => if s = "X1" then some demo_event else none

def c8_st : WatcherState := { offsets := [(bridge_file_path "/d", 10)], db := emptyDB }

/-- The update applied to an existing row never changes its session_id. -/
theorem apply_update_session_id (now event_name status : String) (new_pending : Int)
    (pane window tmux_session model cwd transcript_path prompt_text tool_name detail : String)
    (r : Session) :
    (apply_update now event_name status new_pending pane window tmux_session model cwd
      transcript_path prompt_text tool_name detail r).session_id = r.session_id := rfl

theorem apply_update_pending (now event_name status : String) (new_pending : Int)
    (pane window tmux_session model cwd transcript_path prompt_text tool_name detail : String)
    (r : Session) :
    (apply_update now event_name status new_pending pane window tmux_session model cwd
      transcript_path prompt_text tool_name detail r).pending_permissions = new_pending := rfl

theorem apply_update_status (now event_name status : String) (new_pending : Int)
    (pane window tmux_session model cwd transcript_path prompt_text tool_name detail : String)
    (r : Session) :
    (apply_update now event_name status new_pending pane window tmux_session model cwd
      transcript_path prompt_text tool_name detail r).status = status := rfl

theorem find?_sid_end_others (pane sid s : String) (l : List Session)
    (h : l.find? (fun r => r.session_id == s) = none) :
    (end_others_on_pane pane sid l).find? (fun r => r.session_id == s) = none := by
  unfold end_others_on_pane
  rw [List.find?_map]
  have hcomp : ((fun r : Session => r.session_id == s) ∘
      (fun r : Session =>
        if r.tmux_pane == pane && r.session_id != sid
            && !(r.status == "ended" || r.status == "dismissed")
        then { r with status := "ended" } else r)) = (fun r : Session => r.session_id == s) := by
    funext r
    simp only [Function.comp_apply]
    split <;> rfl
  rw [hcomp, h]
  rfl

theorem status_of_ne_empty (db : DB) (sid : String) : status_of db sid ≠ "" := by
  unfold status_of
  cases h : session_for db sid with
  | none => simp
  | some r =>
    by_cases hs : r.status = ""
    · simp [hs]
    · simp [hs]

theorem derive_status_ne_empty (e : String) (p : Int) (nt c : String) (h : c ≠ "") :
    derive_status e p nt c ≠ "" := by
  unfold derive_status
  split_ifs <;> simp_all

theorem pending_of_track (d : HookData) (src ovr : Option String) (ctx : TmuxCtx)
    (now : String) (db : DB) :
    pending_of (track d src ovr ctx now db) (d.session_id.getD "unknown") =
      compute_new_pending (d.hook_event_name.getD "unknown") (d.notification_type.getD "")
        (pending_of db (d.session_id.getD "unknown")) := by
  unfold pending_of session_for track
  cases hfind : db.sessions.find? (fun r => r.session_id == d.session_id.getD "unknown") with
  | none =>
    simp only [hfind]
    rw [List.find?_append]
    have hcl : (if resolved_pane ctx ovr ≠ "" then
        end_others_on_pane (resolved_pane ctx ovr) (d.session_id.getD "unknown") db.sessions
        else db.sessions).find? (fun r => r.session_id == d.session_id.getD "unknown") = none := by
      split
      · exact find?_sid_end_others _ _ _ _ hfind
      · exact hfind
    rw [hcl]
    simp [new_session_row]
  | some r =>
    simp only [hfind]
    rw [List.find?_map]
    have hcomp : ((fun row : Session => row.session_id == d.session_id.getD "unknown") ∘
        (fun row : Session =>
          if row.session_id == d.session_id.getD "unknown" then
            apply_update now (d.hook_event_name.getD "unknown")
              (derive_status (d.hook_event_name.getD "unknown")
                (compute_new_pending (d.hook_event_name.getD "unknown")
                  (d.notification_type.getD "") r.pending_permissions)
                (d.notification_type.getD "")
                (if r.status = "" then "active" else r.status))
              (compute_new_pending (d.hook_event_name.getD "unknown")
                (d.notification_type.getD "") r.pending_permissions)
              (resolved_pane ctx ovr) (resolved_window ctx ovr) (resolved_session ctx ovr)
              (d.model.getD "") (d.cwd.getD "") (d.transcript_path.getD "")
              (if d.hook_event_name.getD "unknown" = "UserPromptSubmit" then
                (d.prompt.getD "").take 200 else "")
              (d.tool_name.getD "")
              (extract_detail (d.hook_event_name.getD "unknown") (d.tool_name.getD "")
                d.tool_input) row
          else row)) =
        (fun row : Session => row.session_id == d.session_id.getD "unknown") := by
      funext row
      simp only [Function.comp_apply]
      split <;> rfl
    rw [hcomp, hfind]
    have hr := List.find?_some hfind
    simp only [Option.map_some']
    rw [if_pos hr]
    rfl

theorem status_of_track (d : HookData) (src ovr : Option String) (ctx : TmuxCtx)
    (now : String) (db : DB) :
    status_of (track d src ovr ctx now db) (d.session_id.getD "unknown") =
      derive_status (d.hook_event_name.getD "unknown")
        (compute_new_pending (d.hook_event_name.getD "unknown") (d.notification_type.getD "")
          (pending_of db (d.session_id.getD "unknown")))
        (d.notification_type.getD "")
        (status_of db (d.session_id.getD "unknown")) := by
  have hne : status_of db (d.session_id.getD "unknown") ≠ "" :=
    status_of_ne_empty db (d.session_id.getD "unknown")
  have hds : derive_status (d.hook_event_name.getD "unknown")
      (compute_new_pending (d.hook_event_name.getD "unknown") (d.notification_type.getD "")
        (pending_of db (d.session_id.getD "unknown")))
      (d.notification_type.getD "") (status_of db (d.session_id.getD "unknown")) ≠ "" :=
    derive_status_ne_empty _ _ _ _ hne
  unfold status_of pending_of session_for at *
  unfold track
  cases hfind : db.sessions.find? (fun r => r.session_id == d.session_id.getD "unknown") with
  | none =>
    simp only [hfind] at hds ⊢
    rw [List.find?_append]
    have hcl : (if resolved_pane ctx ovr ≠ "" then
        end_others_on_pane (resolved_pane ctx ovr) (d.session_id.getD "unknown") db.sessions
        else db.sessions).find? (fun r => r.session_id == d.session_id.getD "unknown") = none := by
      split
      · exact find?_sid_end_others _ _ _ _ hfind
      · exact hfind
    rw [hcl]
    simp only [Option.none_or]
    rw [List.find?_cons_of_pos _ (by simp [new_session_row])]
    simp only [new_session_row]
    rw [if_neg hds]
  | some r =>
    simp only [hfind] at hds ⊢
    rw [List.find?_map]
    have hcomp : ((fun row : Session => row.session_id == d.session_id.getD "unknown") ∘
        (fun row : Session =>
          if row.session_id == d.session_id.getD "unknown" then
            apply_update now (d.hook_event_name.getD "unknown")
              (derive_status (d.hook_event_name.getD "unknown")
                (compute_new_pending (d.hook_event_name.getD "unknown")
                  (d.notification_type.getD "") r.pending_permissions)
                (d.notification_type.getD "")
                (if r.status = "" then "active" else r.status))
              (compute_new_pending (d.hook_event_name.getD "unknown")
                (d.notification_type.getD "") r.pending_permissions)
              (resolved_pane ctx ovr) (resolved_window ctx ovr) (resolved_session ctx ovr)
              (d.model.getD "") (d.cwd.getD "") (d.transcript_path.getD "")
              (if d.hook_event_name.getD "unknown" = "UserPromptSubmit" then
                (d.prompt.getD "").take 200 else "")
              (d.tool_name.getD "")
              (extract_detail (d.hook_event_name.getD "unknown") (d.tool_name.getD "")
                d.tool_input) row
          else row)) =
        (fun row : Session => row.session_id == d.session_id.getD "unknown") := by
      funext row
      simp only [Function.comp_apply]
      split <;> rfl
    rw [hcomp, hfind]
    have hr := List.find?_some hfind
    simp only [Option.map_some']
    rw [if_pos hr]
    rw [apply_update_status]
    rw [if_neg hds]

theorem compute_new_pending_nonneg (e nt : String) (c : Int) (h : 0 ≤ c) :
    0 ≤ compute_new_pending e nt c := by
  unfold compute_new_pending
  split_ifs
  · omega
  · exact le_max_left 0 _
  · omega
  · omega

theorem compute_eval_PTU (nt : String) (c : Int) :
    compute_new_pending "PostToolUse" nt c = max 0 (c - 1) := by
  simp [compute_new_pending]

theorem compute_eval_PR (nt : String) (c : Int) :
    compute_new_pending "PermissionRequest" nt c = c + 1 := by
  simp [compute_new_pending]

theorem compute_eval_UPS (nt : String) (c : Int) :
    compute_new_pending "UserPromptSubmit" nt c = 0 := by
  simp [compute_new_pending]

theorem compute_eval_Pre (nt : String) (c : Int) :
    compute_new_pending "PreToolUse" nt c = c := by
  simp [compute_new_pending]

theorem derive_eval_PR (p : Int) (nt c : String) :
    derive_status "PermissionRequest" p nt c = "waiting" := by
  simp [derive_status]

theorem derive_eval_PTU (p : Int) (nt c : String) :
    derive_status "PostToolUse" p nt c = if p > 0 then "waiting" else "active" := by
  simp [derive_status]

theorem derive_eval_UPS (p : Int) (nt c : String) :
    derive_status "UserPromptSubmit" p nt c = "active" := by
  simp [derive_status]

theorem track_sessions_found (d : HookData) (src ovr : Option String) (ctx : TmuxCtx)
    (now : String) (db : DB) (r : Session)
    (hfind : db.sessions.find? (fun row => row.session_id == d.session_id.getD "unknown")
      = some r) :
    (track d src ovr ctx now db).sessions =
      db.sessions.map (fun row =>
        if row.session_id == d.session_id.getD "unknown" then
          apply_update now (d.hook_event_name.getD "unknown")
            (derive_status (d.hook_event_name.getD "unknown")
              (compute_new_pending (d.hook_event_name.getD "unknown")
                (d.notification_type.getD "") r.pending_permissions)
              (d.notification_type.getD "")
              (if r.status = "" then "active" else r.status))
            (compute_new_pending (d.hook_event_name.getD "unknown")
              (d.notification_type.getD "") r.pending_permissions)
            (resolved_pane ctx ovr) (resolved_window ctx ovr) (resolved_session ctx ovr)
            (d.model.getD "") (d.cwd.getD "") (d.transcript_path.getD "")
            (if d.hook_event_name.getD "unknown" = "UserPromptSubmit" then
              (d.prompt.getD "").take 200 else "")
            (d.tool_name.getD "")
            (extract_detail (d.hook_event_name.getD "unknown") (d.tool_name.getD "")
              d.tool_input) row
        else row) := by
  simp only [track, hfind]

theorem track_sessions_new (d : HookData) (src ovr : Option String) (ctx : TmuxCtx)
    (now : String) (db : DB)
    (hfind : db.sessions.find? (fun row => row.session_id == d.session_id.getD "unknown")
      = none) :
    (track d src ovr ctx now db).sessions =
      (if resolved_pane ctx ovr ≠ "" then
        end_others_on_pane (resolved_pane ctx ovr) (d.session_id.getD "unknown") db.sessions
      else db.sessions) ++
      [new_session_row (d.session_id.getD "unknown") (d.cwd.getD "")
        (resolved_pane ctx ovr) (resolved_window ctx ovr) (resolved_session ctx ovr)
        (derive_status (d.hook_event_name.getD "unknown")
          (compute_new_pending (d.hook_event_name.getD "unknown")
            (d.notification_type.getD "") 0)
          (d.notification_type.getD "") "active")
        now (d.hook_event_name.getD "unknown") (d.tool_name.getD "")
        (extract_detail (d.hook_event_name.getD "unknown") (d.tool_name.getD "") d.tool_input)
        (if d.hook_event_name.getD "unknown" = "UserPromptSubmit" then
          (d.prompt.getD "").take 200 else "")
        (d.model.getD "") (d.transcript_path.getD "")
        (match src with
          | none => "host"
          | some s => if s = "" then "host" else s)
        (compute_new_pending (d.hook_event_name.getD "unknown")
          (d.notification_type.getD "") 0)] := by
  simp only [track, hfind]

theorem mem_end_others (pane sid : String) (l : List Session) (s : Session)
    (hs : s ∈ end_others_on_pane pane sid l) :
    ∃ row ∈ l, s = row ∨ s = { row with status := "ended" } := by
  unfold end_others_on_pane at hs
  obtain ⟨row, hrow, hsrow⟩ := List.mem_map.1 hs
  refine ⟨row, hrow, ?_⟩
  by_cases hc : (row.tmux_pane == pane && row.session_id != sid
      && !(row.status == "ended" || row.status == "dismissed")) = true
  · right; rw [if_pos hc] at hsrow; exact hsrow.symm
  · left; rw [if_neg hc] at hsrow; exact hsrow.symm

theorem track_step_nonneg (d : HookData) (src ovr : Option String) (ctx : TmuxCtx)
    (now : String) (db : DB)
    (hdb : ∀ s ∈ db.sessions, 0 ≤ s.pending_permissions) :
    ∀ s ∈ (track d src ovr ctx now db).sessions, 0 ≤ s.pending_permissions := by
  intro s hs
  cases hfind : db.sessions.find? (fun row => row.session_id == d.session_id.getD "unknown") with
  | none =>
    rw [track_sessions_new d src ovr ctx now db hfind] at hs
    rcases List.mem_append.1 hs with hs | hs
    · have hmem : ∃ row ∈ db.sessions, s = row ∨ s = { row with status := "ended" } := by
        by_cases hp : resolved_pane ctx ovr ≠ ""
        · rw [if_pos hp] at hs
          exact mem_end_others _ _ _ _ hs
        · rw [if_neg hp] at hs
          exact ⟨s, hs, Or.inl rfl⟩
      obtain ⟨row, hrow, hcase⟩ := hmem
      rcases hcase with h | h
      · rw [h]; exact hdb row hrow
      · rw [h]; exact hdb row hrow
    · simp only [List.mem_singleton] at hs
      subst hs
      exact compute_new_pending_nonneg _ _ _ le_rfl
  | some r =>
    rw [track_sessions_found d src ovr ctx now db r hfind] at hs
    obtain ⟨row, hrow, hsrow⟩ := List.mem_map.1 hs
    by_cases hc : (row.session_id == d.session_id.getD "unknown") = true
    · rw [if_pos hc] at hsrow
      subst hsrow
      rw [apply_update_pending]
      exact compute_new_pending_nonneg _ _ _
        (hdb r (List.mem_of_find?_eq_some hfind))
    · rw [if_neg hc] at hsrow
      subst hsrow
      exact hdb row hrow

theorem derive_eval_Pre (p : Int) (nt c : String) :
    derive_status "PreToolUse" p nt c = "active" := by
  simp [derive_status]

theorem derive_eval_Stop (p : Int) (nt c : String) :
    derive_status "Stop" p nt c = "idle" := by
  simp [derive_status]

theorem derive_eval_SessionEnd (p : Int) (nt c : String) :
    derive_status "SessionEnd" p nt c = "ended" := by
  simp [derive_status]

theorem derive_eval_Notif_idle (p : Int) (c : String) :
    derive_status "Notification" p "idle_prompt" c = "idle" := by
  simp [derive_status]

theorem derive_eval_Notif_perm (p : Int) (c : String) :
    derive_status "Notification" p "permission_prompt" c = "waiting" := by
  simp [derive_status]

theorem compute_eval_Stop (nt : String) (c : Int) :
    compute_new_pending "Stop" nt c = 0 := by
  simp [compute_new_pending]

theorem compute_eval_SessionEnd (nt : String) (c : Int) :
    compute_new_pending "SessionEnd" nt c = 0 := by
  simp [compute_new_pending]

theorem compute_eval_Notif (nt : String) (c : Int) :
    compute_new_pending "Notification" nt c = if nt = "idle_prompt" then 0 else c := by
  by_cases h : nt = "idle_prompt" <;> simp [compute_new_pending, h]

/-- C1: starting from the empty store, every session row produced by any
sequence of track calls has a non-negative pending_permissions count. -/
theorem C1_pending_nonneg (calls : List TrackCall) :
    ∀ s ∈ (track_all calls emptyDB).sessions, 0 ≤ s.pending_permissions := by
  suffices h : ∀ (cs : List TrackCall) (db : DB),
      (∀ s ∈ db.sessions, 0 ≤ s.pending_permissions) →
      ∀ s ∈ (track_all cs db).sessions, 0 ≤ s.pending_permissions by
    refine h calls emptyDB ?_
    intro s hs
    simp [emptyDB] at hs
  intro cs
  induction cs with
  | nil =>
    intro db hdb
    simpa [track_all] using hdb
  | cons c rest ih =>
    intro db hdb
    have hstep : track_all (c :: rest) db =
        track_all rest (track c.data c.source c.tmux_pane_override c.ctx c.now db) := rfl
    rw [hstep]
    exact ih _ (track_step_nonneg _ _ _ _ _ _ hdb)

/-- Witness for C1 at a concrete one-event sequence. -/
theorem C1_witness : 0 ≤ c1_row.pending_permissions :=
  C1_pending_nonneg [c1_call] c1_row (by decide)

/-- C2 amended: a PreToolUse event sets status active and leaves the pending
count unchanged; a UserPromptSubmit event sets status active but resets the
pending count to 0. -/
theorem C2_amended (d : HookData) (src ovr : Option String) (ctx : TmuxCtx)
    (now : String) (db : DB) :
    (d.hook_event_name = some "PreToolUse" →
      pending_of (track d src ovr ctx now db) (d.session_id.getD "unknown")
          = pending_of db (d.session_id.getD "unknown")
        ∧ status_of (track d src ovr ctx now db) (d.session_id.getD "unknown") = "active")
    ∧ (d.hook_event_name = some "UserPromptSubmit" →
      pending_of (track d src ovr ctx now db) (d.session_id.getD "unknown") = 0
        ∧ status_of (track d src ovr ctx now db) (d.session_id.getD "unknown") = "active") := by
  constructor
  · intro h
    rw [pending_of_track, status_of_track, h]
    simp [compute_eval_Pre, derive_eval_Pre]
  · intro h
    rw [pending_of_track, status_of_track, h]
    simp [compute_eval_UPS, derive_eval_UPS]

/-- Witness for C2 amended at a concrete PreToolUse event. -/
theorem C2_amended_witness :
    pending_of (track (simple_event "s1" "PreToolUse") none none ctx0 "" emptyDB)
        ((simple_event "s1" "PreToolUse").session_id.getD "unknown")
      = pending_of emptyDB ((simple_event "s1" "PreToolUse").session_id.getD "unknown")
    ∧ status_of (track (simple_event "s1" "PreToolUse") none none ctx0 "" emptyDB)
        ((simple_event "s1" "PreToolUse").session_id.getD "unknown") = "active" :=
  (C2_amended (simple_event "s1" "PreToolUse") none none ctx0 "" emptyDB).1 rfl

/-- C2 counterexample: after two permission requests the session has pending
count 2, and a UserPromptSubmit for it resets the count to 0 instead of
leaving it unchanged as the claim states. -/
theorem C2_counterexample :
    pending_of c2_db "s1" = 2
    ∧ pending_of (track (simple_event "s1" "UserPromptSubmit") none none ctx0 "" c2_db) "s1" = 0
    ∧ pending_of (track (simple_event "s1" "UserPromptSubmit") none none ctx0 "" c2_db) "s1"
        ≠ pending_of c2_db "s1" := by
  refine ⟨by decide, by decide, by decide⟩

/-- C3: a Stop event resets pending to 0 with status idle, a SessionEnd
event resets pending to 0 with status ended, and an idle-prompt
Notification resets pending to 0 with status idle. -/
theorem C3_reset_events (d : HookData) (src ovr : Option String) (ctx : TmuxCtx)
    (now : String) (db : DB) :
    (d.hook_event_name = some "Stop" →
      pending_of (track d src ovr ctx now db) (d.session_id.getD "unknown") = 0
        ∧ status_of (track d src ovr ctx now db) (d.session_id.getD "unknown") = "idle")
    ∧ (d.hook_event_name = some "SessionEnd" →
      pending_of (track d src ovr ctx now db) (d.session_id.getD "unknown") = 0
        ∧ status_of (track d src ovr ctx now db) (d.session_id.getD "unknown") = "ended")
    ∧ (d.hook_event_name = some "Notification" ∧ d.notification_type = some "idle_prompt" →
      pending_of (track d src ovr ctx now db) (d.session_id.getD "unknown") = 0
        ∧ status_of (track d src ovr ctx now db) (d.session_id.getD "unknown") = "idle") := by
  refine ⟨?_, ?_, ?_⟩
  · intro h
    rw [pending_of_track, status_of_track, h]
    simp [compute_eval_Stop, derive_eval_Stop]
  · intro h
    rw [pending_of_track, status_of_track, h]
    simp [compute_eval_SessionEnd, derive_eval_SessionEnd]
  · intro h
    rw [pending_of_track, status_of_track, h.1, h.2]
    simp [compute_eval_Notif, derive_eval_Notif_idle]

/-- Witness for C3 at a concrete Stop event on a store with pending 2. -/
theorem C3_witness :
    pending_of (track (simple_event "s1" "Stop") none none ctx0 "" c2_db)
        ((simple_event "s1" "Stop").session_id.getD "unknown") = 0
    ∧ status_of (track (simple_event "s1" "Stop") none none ctx0 "" c2_db)
        ((simple_event "s1" "Stop").session_id.getD "unknown") = "idle" :=
  (C3_reset_events (simple_event "s1" "Stop") none none ctx0 "" c2_db).1 rfl

/-- C4: a PermissionRequest event sets status waiting and increments the
pending count; a permission-prompt Notification sets status waiting and
leaves the pending count unchanged. -/
theorem C4_permission_events (d : HookData) (src ovr : Option String) (ctx : TmuxCtx)
    (now : String) (db : DB) :
    (d.hook_event_name = some "PermissionRequest" →
      pending_of (track d src ovr ctx now db) (d.session_id.getD "unknown")
          = pending_of db (d.session_id.getD "unknown") + 1
        ∧ status_of (track d src ovr ctx now db) (d.session_id.getD "unknown") = "waiting")
    ∧ (d.hook_event_name = some "Notification" ∧ d.notification_type = some "permission_prompt" →
      pending_of (track d src ovr ctx now db) (d.session_id.getD "unknown")
          = pending_of db (d.session_id.getD "unknown")
        ∧ status_of (track d src ovr ctx now db) (d.session_id.getD "unknown") = "waiting") := by
  constructor
  · intro h
    rw [pending_of_track, status_of_track, h]
    simp [compute_eval_PR, derive_eval_PR]
  · intro h
    rw [pending_of_track, status_of_track, h.1, h.2]
    simp [compute_eval_Notif, derive_eval_Notif_perm]

/-- Witness for C4 at a concrete PermissionRequest event. -/
theorem C4_witness :
    pending_of (track (simple_event "s1" "PermissionRequest") none none ctx0 "" c2_db)
        ((simple_event "s1" "PermissionRequest").session_id.getD "unknown")
      = pending_of c2_db ((simple_event "s1" "PermissionRequest").session_id.getD "unknown") + 1
    ∧ status_of (track (simple_event "s1" "PermissionRequest") none none ctx0 "" c2_db)
        ((simple_event "s1" "PermissionRequest").session_id.getD "unknown") = "waiting" :=
  (C4_permission_events (simple_event "s1" "PermissionRequest") none none ctx0 "" c2_db).1 rfl

theorem ingest_step_pending (sid e : String) (db : DB) :
    pending_of (track (simple_event sid e) none none ctx0 "" db) sid
      = compute_new_pending e "" (pending_of db sid) := by
  simpa [simple_event] using
    pending_of_track (simple_event sid e) none none ctx0 "" db

theorem ingest_step_status (sid e : String) (db : DB) :
    status_of (track (simple_event sid e) none none ctx0 "" db) sid
      = derive_status e (compute_new_pending e "" (pending_of db sid)) ""
          (status_of db sid) := by
  simpa [simple_event] using
    status_of_track (simple_event sid e) none none ctx0 "" db

theorem pr_phase (sid : String) (m : Nat) (db : DB) :
    pending_of (ingest_simple sid (List.replicate m "PermissionRequest") db) sid
      = pending_of db sid + (m : Int)
    ∧ status_of (ingest_simple sid (List.replicate m "PermissionRequest") db) sid
      = if m = 0 then status_of db sid else "waiting" := by
  induction m generalizing db with
  | zero => simp [ingest_simple]
  | succ k ih =>
    have hsplit : ingest_simple sid (List.replicate (k + 1) "PermissionRequest") db
        = ingest_simple sid (List.replicate k "PermissionRequest")
            (track (simple_event sid "PermissionRequest") none none ctx0 "" db) := by
      simp [ingest_simple, List.replicate_succ]
    rw [hsplit]
    obtain ⟨hp, hs⟩ := ih (track (simple_event sid "PermissionRequest") none none ctx0 "" db)
    constructor
    · rw [hp, ingest_step_pending, compute_eval_PR]
      push_cast
      ring
    · rw [hs, ingest_step_status, derive_eval_PR]
      split <;> rfl

theorem ptu_phase (sid : String) (j : Nat) (p : Int) (db : DB)
    (hj : (j : Int) ≤ p)
    (hp : pending_of db sid = p)
    (hs : status_of db sid = if 0 < p then "waiting" else "active") :
    pending_of (ingest_simple sid (List.replicate j "PostToolUse") db) sid = p - j
    ∧ status_of (ingest_simple sid (List.replicate j "PostToolUse") db) sid
      = if (j : Int) < p then "waiting" else "active" := by
  induction j generalizing p db with
  | zero =>
    constructor
    · simpa [ingest_simple] using hp
    · simpa [ingest_simple] using hs
  | succ k ih =>
    have hsplit : ingest_simple sid (List.replicate (k + 1) "PostToolUse") db
        = ingest_simple sid (List.replicate k "PostToolUse")
            (track (simple_event sid "PostToolUse") none none ctx0 "" db) := by
      simp [ingest_simple, List.replicate_succ]
    rw [hsplit]
    have hone : (1 : Int) ≤ p := by
      have : ((k + 1 : Nat) : Int) ≤ p := hj
      push_cast at this
      omega
    have hp1 : pending_of (track (simple_event sid "PostToolUse") none none ctx0 "" db) sid
        = p - 1 := by
      rw [ingest_step_pending, compute_eval_PTU, hp]
      omega
    have hs1 : status_of (track (simple_event sid "PostToolUse") none none ctx0 "" db) sid
        = if 0 < p - 1 then "waiting" else "active" := by
      rw [ingest_step_status, compute_eval_PTU, hp, derive_eval_PTU]
      have hmax : max 0 (p - 1) = p - 1 := by omega
      rw [hmax]
    have hjk : (k : Int) ≤ p - 1 := by
      have : ((k + 1 : Nat) : Int) ≤ p := hj
      push_cast at this
      omega
    obtain ⟨hpk, hsk⟩ := ih (p - 1) _ hjk hp1 hs1
    constructor
    · rw [hpk]
      push_cast
      ring
    · rw [hsk]
      have hcast : ((k + 1 : Nat) : Int) = (k : Int) + 1 := by push_cast; ring
      rw [hcast]
      have hiff : ((k : Int) < p - 1) ↔ ((k : Int) + 1 < p) := by omega
      simp only [hiff]

/-- C5: from a store with no row for the session, n permission requests
followed by k tool completions (k at most n) leave the pending count at
n - k, with status waiting while requests remain and active once all n are
matched. -/
theorem C5_matched_requests (sid : String) (db : DB) (n k : Nat)
    (hdb : session_for db sid = none) (hn : 1 ≤ n) (hk : k ≤ n) :
    pending_of (ingest_simple sid
        (List.replicate n "PermissionRequest" ++ List.replicate k "PostToolUse") db) sid
      = (n : Int) - k
    ∧ status_of (ingest_simple sid
        (List.replicate n "PermissionRequest" ++ List.replicate k "PostToolUse") db) sid
      = if k < n then "waiting" else "active" := by
  have happ : ingest_simple sid
      (List.replicate n "PermissionRequest" ++ List.replicate k "PostToolUse") db
      = ingest_simple sid (List.replicate k "PostToolUse")
          (ingest_simple sid (List.replicate n "PermissionRequest") db) := by
    simp [ingest_simple, List.foldl_append]
  rw [happ]
  have h0p : pending_of db sid = 0 := by
    unfold pending_of
    rw [hdb]
  obtain ⟨hp1, hs1⟩ := pr_phase sid n db
  rw [h0p, zero_add] at hp1
  have hn0 : n ≠ 0 := by omega
  rw [if_neg hn0] at hs1
  have hs1' : status_of (ingest_simple sid (List.replicate n "PermissionRequest") db) sid
      = if 0 < (n : Int) then "waiting" else "active" := by
    rw [hs1, if_pos (by exact_mod_cast hn)]
  obtain ⟨hp2, hs2⟩ := ptu_phase sid k (n : Int) _ (by exact_mod_cast hk) hp1 hs1'
  refine ⟨hp2, ?_⟩
  rw [hs2]
  have hiff : ((k : Int) < (n : Int)) ↔ (k < n) := by exact_mod_cast Iff.rfl
  simp only [hiff]

/-- Witness for C5 at n = 2, k = 1 from the empty store. -/
theorem C5_witness :
    pending_of (ingest_simple "s1"
        (List.replicate 2 "PermissionRequest" ++ List.replicate 1 "PostToolUse") emptyDB) "s1"
      = (2 : Int) - 1
    ∧ status_of (ingest_simple "s1"
        (List.replicate 2 "PermissionRequest" ++ List.replicate 1 "PostToolUse") emptyDB) "s1"
      = if 1 < 2 then "waiting" else "active" :=
  C5_matched_requests "s1" emptyDB 2 1 rfl (by decide) (by decide)

/-- C6 amended: when track creates a brand-new session on a non-empty pane,
every other row holding that pane is left in a terminal status after the
ingestion (those that were live are force-ended, dismissed rows stay
dismissed), so immediately after such a creation at most one non-terminal
session occupies the pane. -/
theorem C6_amended (d : HookData) (src ovr : Option String) (ctx : TmuxCtx)
    (now : String) (db : DB)
    (hnew : session_for db (d.session_id.getD "unknown") = none)
    (hpane : resolved_pane ctx ovr ≠ "") :
    ∀ s ∈ (track d src ovr ctx now db).sessions,
      s.session_id ≠ d.session_id.getD "unknown" →
      s.tmux_pane = resolved_pane ctx ovr →
      s.status = "ended" ∨ s.status = "dismissed" := by
  intro s hs hsid hspane
  rw [track_sessions_new d src ovr ctx now db hnew] at hs
  rcases List.mem_append.1 hs with hs | hs
  · rw [if_pos hpane] at hs
    unfold end_others_on_pane at hs
    obtain ⟨row, hrow, heq⟩ := List.mem_map.1 hs
    split at heq
    · left
      rw [← heq]
    · next hcond =>
      rw [Bool.not_eq_true] at hcond
      subst heq
      have e1 : (row.tmux_pane == resolved_pane ctx ovr) = true := by
        simp [hspane]
      have e2 : (row.session_id != d.session_id.getD "unknown") = true := by
        simp [hsid]
      rw [e1, e2] at hcond
      simp at hcond
      by_cases he : row.status = "ended"
      · left; exact he
      · right; exact hcond he
  · simp only [List.mem_singleton] at hs
    subst hs
    exact absurd rfl hsid

set_option maxRecDepth 10000 in
/-- Witness for C6 amended: a second session created on the pane of a live
first session leaves the first session's row terminal. -/
theorem C6_amended_witness :
    c6_old_row.status = "ended" ∨ c6_old_row.status = "dismissed" :=
  C6_amended (simple_event "s2" "UserPromptSubmit") none none (ctxP "%1") "t2" c6_db1
    rfl (by decide) c6_old_row (by decide) (by decide) (by decide)

/-- C6 counterexample: an update to an existing session records a pane
already held by another live session without ending it, so a reachable
store has two non-terminal sessions on the same non-empty pane. -/
theorem C6_counterexample :
    "%1" ≠ "" ∧
    (c6_db3.sessions.filter (fun r =>
      r.tmux_pane == "%1" && !(r.status == "ended" || r.status == "dismissed"))).length
      = 2 := by
  exact ⟨by decide, by decide⟩

/-- C7 amended: on a store whose session ids are distinct, the sweep ends
exactly the rows whose status is active, waiting or idle and whose recorded
pane or tmux session is empty or whose pair is not live; every other row,
including rows in status pending, ended or dismissed and rows whose pair is
live, is unchanged. -/
theorem C7_amended (live : List (String × String)) (db : DB)
    (hids : (db.sessions.map (fun r => r.session_id)).Nodup) :
    (cleanup_stale_sessions live db).sessions = db.sessions.map (fun r =>
      if (r.status = "active" ∨ r.status = "waiting" ∨ r.status = "idle")
          ∧ (r.tmux_pane = "" ∨ r.tmux_session = ""
             ∨ (r.tmux_session, r.tmux_pane) ∉ live)
      then { r with status := "ended" } else r) := by
  unfold cleanup_stale_sessions
  dsimp only
  apply List.map_congr_left
  intro r hr
  have hiff : ((((db.sessions.filter (fun x =>
        x.status == "active" || x.status == "waiting" || x.status == "idle")).filter
          (fun x => x.tmux_pane == "" || x.tmux_session == ""
            || !(live.contains (x.tmux_session, x.tmux_pane)))).map
        (fun x => x.session_id)).contains r.session_id) = true
      ↔ ((r.status = "active" ∨ r.status = "waiting" ∨ r.status = "idle")
          ∧ (r.tmux_pane = "" ∨ r.tmux_session = ""
             ∨ (r.tmux_session, r.tmux_pane) ∉ live)) := by
    constructor
    · intro h
      have h' : r.session_id ∈ (((db.sessions.filter (fun x =>
          x.status == "active" || x.status == "waiting" || x.status == "idle")).filter
            (fun x => x.tmux_pane == "" || x.tmux_session == ""
              || !(live.contains (x.tmux_session, x.tmux_pane)))).map
          (fun x => x.session_id)) := by
        simpa [List.contains] using h
      obtain ⟨q, hq, hqsid⟩ := List.mem_map.1 h'
      rw [List.mem_filter] at hq
      obtain ⟨hq1, hq2⟩ := hq
      rw [List.mem_filter] at hq1
      obtain ⟨hqmem, hq3⟩ := hq1
      have hqr : q = r := List.inj_on_of_nodup_map hids hqmem hr hqsid
      subst hqr
      constructor
      · simpa [or_assoc] using hq3
      · simpa [List.contains, or_assoc] using hq2
    · intro hQ
      have hmem : r ∈ ((db.sessions.filter (fun x =>
          x.status == "active" || x.status == "waiting" || x.status == "idle")).filter
            (fun x => x.tmux_pane == "" || x.tmux_session == ""
              || !(live.contains (x.tmux_session, x.tmux_pane)))) := by
        rw [List.mem_filter, List.mem_filter]
        refine ⟨⟨hr, ?_⟩, ?_⟩
        · simpa [or_assoc] using hQ.1
        · simpa [List.contains, or_assoc] using hQ.2
      have : r.session_id ∈ (((db.sessions.filter (fun x =>
          x.status == "active" || x.status == "waiting" || x.status == "idle")).filter
            (fun x => x.tmux_pane == "" || x.tmux_session == ""
              || !(live.contains (x.tmux_session, x.tmux_pane)))).map
          (fun x => x.session_id)) := List.mem_map_of_mem _ hmem
      simpa [List.contains] using this
  by_cases hQ : ((r.status = "active" ∨ r.status = "waiting" ∨ r.status = "idle")
      ∧ (r.tmux_pane = "" ∨ r.tmux_session = ""
         ∨ (r.tmux_session, r.tmux_pane) ∉ live))
  · rw [if_pos (hiff.2 hQ), if_pos hQ]
  · rw [if_neg (fun h => hQ (hiff.1 h)), if_neg hQ]

/-- Witness for C7 amended on a two-session store where one pane is live. -/
theorem C7_amended_witness :
    (cleanup_stale_sessions [("w", "%1")] c7_db).sessions = c7_db.sessions.map (fun r =>
      if (r.status = "active" ∨ r.status = "waiting" ∨ r.status = "idle")
          ∧ (r.tmux_pane = "" ∨ r.tmux_session = ""
             ∨ (r.tmux_session, r.tmux_pane) ∉ [("w", "%1")])
      then { r with status := "ended" } else r) :=
  C7_amended [("w", "%1")] c7_db (by decide)

/-- C7 counterexample: a session in status pending whose recorded pane is
not live survives the sweep unchanged; the sweep does not end every
non-terminal session with a dead pane. -/
theorem C7_counterexample :
    (cleanup_stale_sessions [] c7_pending_db).sessions.map (fun r => r.status) = ["pending"]
    ∧ (cleanup_stale_sessions [] c7_pending_db).sessions.map (fun r => r.status)
        ≠ ["ended"] := by
  exact ⟨by decide, by decide⟩

/-- C8 amended: whenever the bridge file size is at most the persisted
offset — including the strictly smaller truncated or rotated case — the
watcher skips the file for that iteration: no line is re-read, nothing is
ingested and the offset entry is unchanged. -/
theorem C8_amended (jl : String → Option BridgeEvent) (dir_path : String)
    (present : Bool) (content : String) (ctx : TmuxCtx) (now : String)
    (st : WatcherState)
    (h : content.length ≤ offsets_get st.offsets (bridge_file_path dir_path)) :
    process_bridge_dir jl dir_path present content ctx now st = st := by
  cases present <;> simp [process_bridge_dir, h]

/-- Witness for C8 amended: a 3-byte file against a persisted offset of 10. -/
theorem C8_amended_witness :
    process_bridge_dir demo_loads "/d" true "X1\n" ctx0 "t" c8_st = c8_st :=
  C8_amended demo_loads "/d" true "X1\n" ctx0 "t" c8_st (by decide)

/-- C8 counterexample: with the file (3 bytes, one decodable line) strictly
smaller than the persisted offset 10, the iteration leaves the state
untouched — offset still 10, nothing ingested — whereas re-reading the same
content from offset 0 would ingest one event. The watcher skips a shrunken
file instead of re-reading it. -/
theorem C8_counterexample :
    process_bridge_dir demo_loads "/d" true "X1\n" ctx0 "t" c8_st = c8_st
    ∧ offsets_get (process_bridge_dir demo_loads "/d" true "X1\n" ctx0 "t" c8_st).offsets
        (bridge_file_path "/d") = 10
    ∧ (process_bridge_dir demo_loads "/d" true "X1\n" ctx0 "t" c8_st).db.events.length = 0
    ∧ (process_bridge_dir demo_loads "/d" true "X1\n" ctx0 "t"
        { offsets := [], db := emptyDB }).db.events.length = 1 := by
  exact ⟨by decide, by decide, by decide, by decide⟩

theorem track_events_len (d : HookData) (src ovr : Option String) (ctx : TmuxCtx)
    (now : String) (db : DB) :
    (track d src ovr ctx now db).events.length = db.events.length + 1 := by
  have h : (track d src ovr ctx now db).events = db.events ++
      [{ session_id := d.session_id.getD "unknown", timestamp := now,
         event_type := d.hook_event_name.getD "unknown",
         tool_name := d.tool_name.getD "",
         detail := extract_detail (d.hook_event_name.getD "unknown")
           (d.tool_name.getD "") d.tool_input }] := rfl
  rw [h]
  simp

theorem process_bridge_event_events_len (dir_path : String) (ev : BridgeEvent)
    (ctx : TmuxCtx) (now : String) (db : DB) :
    (process_bridge_event dir_path ev ctx now db).events.length
      = db.events.length + 1 := by
  unfold process_bridge_event
  exact track_events_len _ _ _ _ _ _

theorem offsets_get_set (m : List (String × Nat)) (k : String) (v : Nat) :
    offsets_get (offsets_set m k v) k = v := by
  unfold offsets_get offsets_set
  by_cases hany : m.any (fun p => p.1 == k) = true
  · rw [if_pos hany]
    induction m with
    | nil => simp at hany
    | cons p rest ih =>
      by_cases hpk : (p.1 == k) = true
      · simp only [List.map_cons]
        rw [if_pos hpk]
        rw [List.find?_cons_of_pos _ (by simp)]
      · simp only [List.map_cons]
        rw [if_neg hpk]
        rw [List.find?_cons_of_neg _ (by simpa using hpk)]
        apply ih
        simp only [List.any_cons] at hany
        simpa [hpk] using hany
  · rw [if_neg hany]
    rw [List.find?_append]
    have hnone : m.find? (fun p => p.1 == k) = none := by
      rw [List.find?_eq_none]
      intro x hx hpred
      exact hany (List.any_eq_true.2 ⟨x, hx, hpred⟩)
    rw [hnone]
    simp

/-- C9: when the unread suffix of a present bridge file is one decodable
line followed by one malformed line, the iteration ingests exactly one
event and persists the end-of-file offset for that file. -/
theorem C9_bridge_malformed (jl : String → Option BridgeEvent) (dir_path content : String)
    (ctx : TmuxCtx) (now : String) (st : WatcherState) (l1 l2 : String) (rec : BridgeEvent)
    (hoff : offsets_get st.offsets (bridge_file_path dir_path) < content.length)
    (hsplit : splitlines (content.drop (offsets_get st.offsets (bridge_file_path dir_path)))
      = [l1, l2])
    (h1 : py_strip l1 ≠ "") (hjl1 : jl (py_strip l1) = some rec)
    (h2 : py_strip l2 ≠ "") (hjl2 : jl (py_strip l2) = none) :
    (process_bridge_dir jl dir_path true content ctx now st).db.events.length
        = st.db.events.length + 1
    ∧ offsets_get (process_bridge_dir jl dir_path true content ctx now st).offsets
        (bridge_file_path dir_path) = content.length := by
  have hle : ¬ (content.length ≤ offsets_get st.offsets (bridge_file_path dir_path)) := by
    omega
  have hred : process_bridge_dir jl dir_path true content ctx now st =
      { offsets := offsets_set st.offsets (bridge_file_path dir_path) content.length,
        db := process_bridge_lines jl dir_path
          (splitlines (content.drop (offsets_get st.offsets (bridge_file_path dir_path))))
          ctx now st.db } := by
    simp [process_bridge_dir, hle]
  have hlines : process_bridge_lines jl dir_path [l1, l2] ctx now st.db
      = process_bridge_event dir_path rec ctx now st.db := by
    simp [process_bridge_lines, h1, hjl1, h2, hjl2]
  have hdb : (process_bridge_dir jl dir_path true content ctx now st).db
      = process_bridge_event dir_path rec ctx now st.db := by
    rw [hred]
    dsimp only
    rw [hsplit]
    exact hlines
  have hoffres : (process_bridge_dir jl dir_path true content ctx now st).offsets
      = offsets_set st.offsets (bridge_file_path dir_path) content.length := by
    rw [hred]
  constructor
  · rw [hdb]
    exact process_bridge_event_events_len _ _ _ _ _
  · rw [hoffres]
    exact offsets_get_set _ _ _

/-- Witness for C9 on a concrete two-line file read from offset 0. -/
theorem C9_witness :
    (process_bridge_dir demo_loads "/d" true "X1\nBAD\n" ctx0 "t"
        { offsets := [], db := emptyDB }).db.events.length
      = ({ offsets := [], db := emptyDB } : WatcherState).db.events.length + 1
    ∧ offsets_get (process_bridge_dir demo_loads "/d" true "X1\nBAD\n" ctx0 "t"
        { offsets := [], db := emptyDB }).offsets (bridge_file_path "/d")
      = ("X1\nBAD\n" : String).length :=
  C9_bridge_malformed demo_loads "/d" "X1\nBAD\n" ctx0 "t" { offsets := [], db := emptyDB }
    "X1" "BAD" demo_event (by decide) (by decide) (by decide) (by decide)
    (by decide) (by decide)

theorem session_for_track_new (d : HookData) (src ovr : Option String) (ctx : TmuxCtx)
    (now : String) (db : DB)
    (hfind : session_for db (d.session_id.getD "unknown") = none) :
    session_for (track d src ovr ctx now db) (d.session_id.getD "unknown")
      = some (new_session_row (d.session_id.getD "unknown") (d.cwd.getD "")
          (resolved_pane ctx ovr) (resolved_window ctx ovr) (resolved_session ctx ovr)
          (derive_status (d.hook_event_name.getD "unknown")
            (compute_new_pending (d.hook_event_name.getD "unknown")
              (d.notification_type.getD "") 0)
            (d.notification_type.getD "") "active")
          now (d.hook_event_name.getD "unknown") (d.tool_name.getD "")
          (extract_detail (d.hook_event_name.getD "unknown") (d.tool_name.getD "")
            d.tool_input)
          (if d.hook_event_name.getD "unknown" = "UserPromptSubmit" then
            (d.prompt.getD "").take 200 else "")
          (d.model.getD "") (d.transcript_path.getD "")
          (match src with
            | none => "host"
            | some s => if s = "" then "host" else s)
          (compute_new_pending (d.hook_event_name.getD "unknown")
            (d.notification_type.getD "") 0)) := by
  unfold session_for
  rw [track_sessions_new d src ovr ctx now db hfind]
  rw [List.find?_append]
  have hcl : (if resolved_pane ctx ovr ≠ "" then
      end_others_on_pane (resolved_pane ctx ovr) (d.session_id.getD "unknown") db.sessions
      else db.sessions).find? (fun r => r.session_id == d.session_id.getD "unknown")
      = none := by
    split
    · exact find?_sid_end_others _ _ _ _ hfind
    · exact hfind
  rw [hcl]
  simp only [Option.none_or]
  rw [List.find?_cons_of_pos _ (by simp [new_session_row])]

theorem track_new_source (d : HookData) (s : String) (hs : s ≠ "")
    (ovr : Option String) (ctx : TmuxCtx) (now : String) (db : DB)
    (hnew : session_for db (d.session_id.getD "unknown") = none) :
    ∃ row, session_for (track d (some s) ovr ctx now db) (d.session_id.getD "unknown")
        = some row
      ∧ row.source = s := by
  refine ⟨_, session_for_track_new d (some s) ovr ctx now db hnew, ?_⟩
  show (if s = "" then "host" else s) = s
  rw [if_neg hs]

theorem bridge_rewrite_session_id (dir_path : String) (ev : BridgeEvent) :
    (bridge_rewrite_data dir_path ev).session_id = ev.data.session_id := by
  unfold bridge_rewrite_data
  dsimp only
  repeat' split
  all_goals rfl

/-- C10 amended: an event forwarded by the bridge watcher for a session with
no existing row creates the row with source container:<worker-id>, the
worker id being the container field of the bridge record (default unknown).
The host path of a direct event is host; no isolated: tag exists in the
code. -/
theorem C10_amended (dir_path : String) (ev : BridgeEvent) (ctx : TmuxCtx)
    (now : String) (db : DB)
    (hnew : session_for db (ev.data.session_id.getD "unknown") = none) :
    ∃ row, session_for (process_bridge_event dir_path ev ctx now db)
        (ev.data.session_id.getD "unknown") = some row
      ∧ row.source = "container:" ++ ev.container.getD "unknown" := by
  have hne : "container:" ++ ev.container.getD "unknown" ≠ "" := by
    intro h
    have hlen : ("container:" ++ ev.container.getD "unknown").length = 0 := by
      rw [h]
      rfl
    rw [String.length_append] at hlen
    have h10 : ("container:" : String).length = 10 := rfl
    omega
  have hnew2 : session_for db
      ((bridge_rewrite_data dir_path ev).session_id.getD "unknown") = none := by
    rw [bridge_rewrite_session_id]
    exact hnew
  obtain ⟨row, hrow, hsrc⟩ := track_new_source (bridge_rewrite_data dir_path ev)
    ("container:" ++ ev.container.getD "unknown") hne
    (if ev.host_tmux_pane.getD "" = "" then none else some (ev.host_tmux_pane.getD ""))
    ctx now db hnew2
  refine ⟨row, ?_, hsrc⟩
  show session_for (track (bridge_rewrite_data dir_path ev)
      (some ("container:" ++ ev.container.getD "unknown"))
      (if ev.host_tmux_pane.getD "" = "" then none else some (ev.host_tmux_pane.getD ""))
      ctx now db) (ev.data.session_id.getD "unknown") = some row
  rw [← bridge_rewrite_session_id dir_path ev]
  exact hrow

/-- Witness for C10 amended at a concrete bridge record on the empty store. -/
theorem C10_amended_witness :
    ∃ row, session_for (process_bridge_event "/d" demo_event ctx0 "t" emptyDB)
        (demo_event.data.session_id.getD "unknown") = some row
      ∧ row.source = "container:" ++ demo_event.container.getD "unknown" :=
  C10_amended "/d" demo_event ctx0 "t" emptyDB rfl

/-- C10 counterexample: the bridge tags the created session with source
container:c1, not isolated:c1 as the claim states. -/
theorem C10_counterexample :
    ((process_bridge_event "/d" demo_event ctx0 "t" emptyDB).sessions.map
      (fun r => r.source)) = ["container:c1"]
    ∧ ((process_bridge_event "/d" demo_event ctx0 "t" emptyDB).sessions.map
      (fun r => r.source)) ≠ ["isolated:c1"] := by
  exact ⟨by decide, by decide⟩
